import Mathlib

/-!
Verification development for the FedhealthAI federated-learning core
(`backend/api/ml_utils.py` and `backend/api/city_risk_calculator.py`).

The Python source is shallowly embedded: patient records, local/global
models, training metadata, alerts and broadcasts become Lean structures;
the document store becomes an explicit `Store` value threaded through the
stateful operations; Python floats become `ℚ` (with a small `PyFloat`
type where the source explicitly tests for NaN/Inf); timestamps become
integers in the unit the surrounding code uses (hours for the training
trigger, days for the risk/outbreak windows).  `round(x, n)` is embedded
as exact half-to-even rounding on `ℚ`.
-/

namespace Fedhealth

set_option maxRecDepth 2000

/-- Round half to even (Python `round` semantics) on rationals. -/
def roundHalfEven (x : ℚ) : ℤ :=
  let f : ℤ := ⌊x⌋
  let frac : ℚ := x - (f : ℚ)
  if frac < 1/2 then f
  else if 1/2 < frac then f + 1
  else if f % 2 = 0 then f else f + 1

/-- Embedding of Python `round(x, ndigits)` on rationals. -/
def pyRound (ndigits : ℕ) (x : ℚ) : ℚ :=
  (roundHalfEven (x * 10 ^ ndigits) : ℚ) / 10 ^ ndigits

/-- A Python float as the training pipeline sees it: a finite rational,
NaN, or an infinity.  `train_local_model` explicitly tests for the
latter two with `np.isnan` / `np.isinf`. -/
inductive PyFloat
  | fin (q : ℚ)
  | nan
  | inf
deriving DecidableEq, Repr

/-- `np.isnan(v) or np.isinf(v)` for a single value. -/
def PyFloat.isNanOrInf : PyFloat → Bool
  | .fin _ => false
  | .nan => true
  | .inf => true

/-- Python `min(a, b)` on rationals, kernel-reducible. -/
def pymin (a b : ℚ) : ℚ := if a ≤ b then a else b

/-- Python `max(a, b)` on rationals, kernel-reducible. -/
def pymax (a b : ℚ) : ℚ := if a ≤ b then b else a

/-- sklearn `accuracy_score`: fraction of positions where prediction
equals ground truth. -/
def accuracy_score {α : Type} [DecidableEq α] (yTrue yPred : List α) : ℚ :=
  (((yTrue.zip yPred).filter (fun p => p.1 = p.2)).length : ℚ) / (yTrue.length : ℚ)

/-!
## §4.2 Local Trainer: validation gate (`train_local_model`, ml_utils.py 476-667)

The validation prefix of `train_local_model` runs, in order:
minimum-sample check, shape check, NaN/Inf check, the data-leakage check
(`if 'diagnosis' in feature_columns`), and the single-class check.  Only
when every check passes does control reach the XGBoost `model.fit` call.
The gate below mirrors that prefix exactly; `proceedToFit` marks the
point where the classifier is fit.
-/

/-- Outcome of the validation prefix of `train_local_model`: either a
typed error result (the dict with an `error` key), or control reaching
the model-fitting stage. -/
inductive TrainGate
  | failure (msg : String)
  | proceedToFit
deriving DecidableEq, Repr

/-- Validation prefix of `train_local_model` (ml_utils.py 499-544),
check for check in source order. -/
def train_local_model_gate (X : List (List PyFloat)) (y : List String)
    (feature_columns : List String) : TrainGate :=
  if X.length < 10 then
    .failure "Not enough data to train model (need >= 10 samples)"
  else if X.length ≠ y.length then
    .failure "Feature matrix and labels length mismatch"
  else if X.any (fun row => row.any PyFloat.isNanOrInf) then
    .failure "Feature matrix contains NaN or Inf values"
  else if feature_columns.contains "diagnosis" then
    .failure "CRITICAL: diagnosis cannot be in feature_columns! Data leakage detected."
  else if y.dedup.length < 2 then
    .failure "Only one diagnosis class present. Need at least 2 classes for classification."
  else
    .proceedToFit

/-- The label column the training pipeline actually uses:
`preprocess_data` builds `y` from `p.disease_label` (ml_utils.py 471). -/
def labelColumn : String := "disease_label"

/-- A concrete well-formed input whose feature list leaks the label
column: 10 numeric rows, two label classes, features
`["disease_label", "fever"]`. -/
def leakX : List (List PyFloat) :=
  List.replicate 10 [PyFloat.fin 1, PyFloat.fin 0]

/-- Labels for the leakage input: two classes, five each. -/
def leakY : List String :=
  List.replicate 5 "Healthy" ++ List.replicate 5 "Dengue"

/-!
## Further sklearn metrics used by the evaluator

`precision_score`/`recall_score`/`f1_score` with `average='weighted'`
and `zero_division=0`: per-class precision/recall/F1, averaged weighted
by the class support in the ground-truth vector.
-/

/-- Number of occurrences of `c` in `l`. -/
def classCount {α : Type} [DecidableEq α] (l : List α) (c : α) : ℕ :=
  (l.filter (fun x => x = c)).length

/-- True positives for class `c`. -/
def truePos {α : Type} [DecidableEq α] (yTrue yPred : List α) (c : α) : ℕ :=
  ((yTrue.zip yPred).filter (fun p => p.1 = c ∧ p.2 = c)).length

/-- Per-class precision with `zero_division=0`. -/
def classPrecision {α : Type} [DecidableEq α] (yTrue yPred : List α) (c : α) : ℚ :=
  let pp := classCount yPred c
  if pp = 0 then 0 else (truePos yTrue yPred c : ℚ) / (pp : ℚ)

/-- Per-class recall with `zero_division=0`. -/
def classRecall {α : Type} [DecidableEq α] (yTrue yPred : List α) (c : α) : ℚ :=
  let s := classCount yTrue c
  if s = 0 then 0 else (truePos yTrue yPred c : ℚ) / (s : ℚ)

/-- Per-class F1 with `zero_division=0`. -/
def classF1 {α : Type} [DecidableEq α] (yTrue yPred : List α) (c : α) : ℚ :=
  let p := classPrecision yTrue yPred c
  let r := classRecall yTrue yPred c
  if p + r = 0 then 0 else 2 * p * r / (p + r)

/-- Support-weighted average of a per-class metric over the classes
present in the ground truth. -/
def weightedAvg {α : Type} [DecidableEq α]
    (yTrue : List α) (perClass : α → ℚ) : ℚ :=
  ((yTrue.dedup.map (fun c => (classCount yTrue c : ℚ) * perClass c)).sum) /
    (yTrue.length : ℚ)

/-- `precision_score(..., average='weighted', zero_division=0)`. -/
def precision_score {α : Type} [DecidableEq α] (yTrue yPred : List α) : ℚ :=
  weightedAvg yTrue (classPrecision yTrue yPred)

/-- `recall_score(..., average='weighted', zero_division=0)`. -/
def recall_score {α : Type} [DecidableEq α] (yTrue yPred : List α) : ℚ :=
  weightedAvg yTrue (classRecall yTrue yPred)

/-- `f1_score(..., average='weighted', zero_division=0)`. -/
def f1_score {α : Type} [DecidableEq α] (yTrue yPred : List α) : ℚ :=
  weightedAvg yTrue (classF1 yTrue yPred)

/-!
## §4.3 Model Evaluator (`evaluate_model`, ml_utils.py 670-837)

The trainer's successful output is embedded as `ModelData`: the trained
classifier becomes an opaque prediction function on scaled feature rows
(producing encoded class indices), the fitted `LabelEncoder`'s
`inverse_transform` becomes `decode`, and the four split arrays are
carried verbatim.
-/

/-- Successful output of `train_local_model` as consumed by
`evaluate_model`: trained model (`predict`), label decoder, and the
exact train/test splits (labels in encoded form, as in the source). -/
structure ModelData where
  predict : List ℚ → ℕ
  decode : ℕ → String
  X_test : List (List ℚ)
  y_test : List ℕ
  X_train : List (List ℚ)
  y_train : List ℕ

/-- The metrics dict produced by `evaluate_model` (the fields the
persistence layer reads). -/
structure Metrics where
  test_accuracy : ℚ
  test_precision : ℚ
  test_recall : ℚ
  test_f1_score : ℚ
  train_accuracy : ℚ
  train_precision : ℚ
  train_recall : ℚ
  train_f1_score : ℚ
  accuracy_delta : ℚ
  overfitting_detected : Bool
  num_test_samples : ℕ
  num_train_samples : ℕ
deriving DecidableEq, Repr

/-- `evaluate_model` (ml_utils.py 670-837): all reported metrics are
computed on the decoded test split; the same metrics on the training
split are computed afterwards purely for the overfitting comparison. -/
def evaluate_model (md : ModelData) : Metrics :=
  let yTestDec := md.y_test.map md.decode
  let yPredTestDec := (md.X_test.map md.predict).map md.decode
  let yTrainDec := md.y_train.map md.decode
  let yPredTrainDec := (md.X_train.map md.predict).map md.decode
  let testAcc := accuracy_score yTestDec yPredTestDec
  let trainAcc := accuracy_score yTrainDec yPredTrainDec
  let delta := |trainAcc - testAcc|
  { test_accuracy := pyRound 4 testAcc
    test_precision := pyRound 4 (precision_score yTestDec yPredTestDec)
    test_recall := pyRound 4 (recall_score yTestDec yPredTestDec)
    test_f1_score := pyRound 4 (f1_score yTestDec yPredTestDec)
    train_accuracy := pyRound 4 trainAcc
    train_precision := pyRound 4 (precision_score yTrainDec yPredTrainDec)
    train_recall := pyRound 4 (recall_score yTrainDec yPredTrainDec)
    train_f1_score := pyRound 4 (f1_score yTrainDec yPredTrainDec)
    accuracy_delta := pyRound 4 delta
    overfitting_detected := decide (delta > 15/100)
    num_test_samples := md.y_test.length
    num_train_samples := md.y_train.length }

/-!
## Persisted records and the document store
-/

/-- A persisted `LocalModel` document (api/models.py `LocalModel`).
`weights_train_accuracy` is the `train_accuracy` entry stored inside
the `weights` dict for comparison (ml_utils.py 960). -/
structure LocalModelR where
  id : ℕ
  phc_id : String
  version : ℕ
  version_string : String
  accuracy : ℚ
  precisionV : ℚ
  recallV : ℚ
  f1_score : ℚ
  sample_count : ℕ
  num_test_samples : ℕ
  num_train_samples : ℕ
  weights_train_accuracy : ℚ
  trained_at : ℤ
  aggregated : Bool
  aggregated_in_version : Option ℕ
deriving DecidableEq, Repr

/-- `generate_local_version_string` (ml_utils.py 74-76). -/
def generate_local_version_string (phc_id : String) (version_number : ℕ) : String :=
  "local_" ++ phc_id ++ "_v" ++ toString version_number

/-- The `LocalModel.objects.create(...)` call inside
`train_federated_model` (ml_utils.py 945-973): the persisted `accuracy`
(and precision/recall/F1) fields are the evaluator's TEST-set metrics;
the train-set metrics go into the `weights` dict for comparison only. -/
def train_federated_model_persist (phc_id : String) (docId : ℕ) (t : ℤ)
    (next_version : ℕ) (m : Metrics) : LocalModelR :=
  { id := docId
    phc_id := phc_id
    version := next_version
    version_string := generate_local_version_string phc_id next_version
    accuracy := m.test_accuracy
    precisionV := m.test_precision
    recallV := m.test_recall
    f1_score := m.test_f1_score
    sample_count := m.num_test_samples + m.num_train_samples
    num_test_samples := m.num_test_samples
    num_train_samples := m.num_train_samples
    weights_train_accuracy := m.train_accuracy
    trained_at := t
    aggregated := false
    aggregated_in_version := none }

/-- A patient document (api/models.py `Patient`), restricted to the
fields the analysed components read.  `created_at` is a day index
(integer); the risk/outbreak windows in the source are whole days. -/
structure PatientR where
  phc_id : String
  fever : ℕ
  disease_label : String
  severity_level : String
  wbc_count : ℚ
  created_at : ℤ
deriving DecidableEq, Repr

/-- A persisted `GlobalModel` document plus the metric entries of its
aggregated `weights` dict (ml_utils.py 1236-1269). -/
structure GlobalModelR where
  version : ℕ
  version_string : String
  accuracy : ℚ
  contributors : List String
  contributor_versions : List (String × String)
  wPrecision : ℚ
  wRecall : ℚ
  wF1 : ℚ
  total_samples : ℕ
  aggregation_triggered_by : String
deriving DecidableEq, Repr

/-- An `Alert` document (api/models.py `Alert`), restricted to the
fields the claims inspect.  The numeric `risk_score` payload is not
modelled: for the outbreak alert it is `|z|`, which is irrational in
general; no claim reads it. -/
structure AlertR where
  phc_id : String
  alert_type : String
  severity : String
deriving DecidableEq, Repr

/-- A `ModelBroadcast` document (api/models.py `ModelBroadcast`). -/
structure BroadcastR where
  phc_id : String
  global_model_version : ℕ
deriving DecidableEq, Repr

/-- The document store as the analysed components see it. -/
structure Store where
  patients : List PatientR
  locals : List LocalModelR
  globals : List GlobalModelR
  alerts : List AlertR
  broadcasts : List BroadcastR
deriving DecidableEq, Repr

/-- Append an alert (an `Alert.objects.create(...)` call). -/
def Store.addAlert (s : Store) (a : AlertR) : Store :=
  { s with alerts := s.alerts ++ [a] }

/-!
## §4.4 Training Trigger Manager (ml_utils.py 324-418, 1044-1169)

`TrainingMetadata` is per site and every operation of
`handle_patient_creation` touches only the one site's record, so the
state is the optional metadata record of that site.  Timestamps are in
hours (`TIME_THRESHOLD = timedelta(hours=24)`).
-/

/-- The per-site `TrainingMetadata` document. -/
structure MetaR where
  patients_since_last_training : ℕ
  last_training_at : Option ℤ
  training_in_progress : Bool
deriving DecidableEq, Repr

/-- `PATIENT_THRESHOLD = 20` (ml_utils.py 324). -/
def PATIENT_THRESHOLD : ℕ := 20

/-- `TIME_THRESHOLD = timedelta(hours=24)` (ml_utils.py 325), in hours. -/
def TIME_THRESHOLD : ℤ := 24

/-- `increment_patient_count` (ml_utils.py 404-418): bump the counter,
creating the metadata record with count 1 when absent (model defaults:
no last-training time, lock clear). -/
def increment_patient_count : Option MetaR → Option MetaR
  | some m => some { m with patients_since_last_training := m.patients_since_last_training + 1 }
  | none => some { patients_since_last_training := 1, last_training_at := none,
                   training_in_progress := false }

/-- `should_trigger_local_training` (ml_utils.py 328-357): creates the
metadata record on first contact, then checks the patient-count
threshold, then the time threshold. -/
def should_trigger_local_training (now : ℤ) :
    Option MetaR → (Bool × String) × Option MetaR
  | none =>
      ((false, "metadata_initialized"),
       some { patients_since_last_training := 0, last_training_at := none,
              training_in_progress := false })
  | some m =>
      if PATIENT_THRESHOLD ≤ m.patients_since_last_training then
        ((true, "patient_threshold"), some m)
      else
        match m.last_training_at with
        | some t =>
            if TIME_THRESHOLD ≤ now - t then ((true, "time_threshold"), some m)
            else ((false, "no_trigger"), some m)
        | none => ((false, "no_trigger"), some m)

/-- `record_training_completion` (ml_utils.py 388-401): on success,
stamp the time and reset the counter; on success AND failure, release
the lock.  No-op when the metadata record is absent. -/
def record_training_completion (now : ℤ) (success : Bool) :
    Option MetaR → Option MetaR
  | some m =>
      some { patients_since_last_training :=
               if success then 0 else m.patients_since_last_training
             last_training_at := if success then some now else m.last_training_at
             training_in_progress := false }
  | none => none

/-- Behaviour of the `train_federated_model` call as observed by
`handle_patient_creation`: a success result, a typed error result, or a
raised exception. -/
inductive TrainRes
  | ok (version : ℕ) (accuracy : ℚ)
  | err (msg : String)
  | exn (msg : String)
deriving DecidableEq, Repr

/-- The dict returned by `handle_patient_creation`, restricted to the
fields the claims inspect. -/
structure HandleResult where
  model_trained : Bool
  trigger_reason : String
  error : Option String
deriving DecidableEq, Repr

/-- The inner `try` of `handle_patient_creation` (ml_utils.py
1105-1156): run training, then release the lock via
`record_training_completion` on the success path, the error-result path
and the exception path alike. -/
def runTrainingStep (now : ℤ) (reason : String)
    (train : Option MetaR → TrainRes × Option MetaR)
    (st : Option MetaR) : HandleResult × Option MetaR :=
  match train st with
  | (.ok _ _, st4) =>
      ({ model_trained := true, trigger_reason := reason, error := none },
       record_training_completion now true st4)
  | (.err e, st4) =>
      ({ model_trained := false, trigger_reason := reason, error := some e },
       record_training_completion now false st4)
  | (.exn e, st4) =>
      ({ model_trained := false, trigger_reason := reason,
         error := some ("Training execution failed: " ++ e) },
       record_training_completion now false st4)

/-- `handle_patient_creation` (ml_utils.py 1044-1169).  The
`train_federated_model` call is the opaque parameter `train`, free to
return any result and to transform the metadata state arbitrarily
(covering, in particular, its own internal
`record_training_completion` call on its success path). -/
def handle_patient_creation (now : ℤ)
    (train : Option MetaR → TrainRes × Option MetaR)
    (st0 : Option MetaR) : HandleResult × Option MetaR :=
  let st1 := increment_patient_count st0
  let tr := should_trigger_local_training now st1
  let should_train := tr.1.1
  let reason := tr.1.2
  let st2 := tr.2
  if should_train then
    match st2 with
    | some m =>
        if m.training_in_progress then
          ({ model_trained := false, trigger_reason := "training_in_progress",
             error := none }, st2)
        else
          runTrainingStep now reason train
            (some { m with training_in_progress := true })
    | none =>
        -- metadata absent at the re-check: the source proceeds to train
        -- without taking the lock (`if metadata:` skips the lock write)
        runTrainingStep now reason train none
  else
    ({ model_trained := false, trigger_reason := reason, error := none }, st2)

/-- The path condition under which a `handle_patient_creation` call
acquires the per-site training lock (sets `training_in_progress = true`):
the trigger fires after the increment, the metadata record exists, and
the lock is not already held. -/
def acquiresLock (now : ℤ) (st0 : Option MetaR) : Bool :=
  let st1 := increment_patient_count st0
  let tr := should_trigger_local_training now st1
  tr.1.1 && (match tr.2 with
             | some m => !m.training_in_progress
             | none => false)

/-!
## §4.8 Federated Aggregator (ml_utils.py 360-385, 421-444, 1032-1041, 1172-1299)
-/

/-- `generate_global_version_string` (ml_utils.py 79-81). -/
def generate_global_version_string (version_number : ℕ) : String :=
  "global_v" ++ toString version_number

/-- The four hard-coded site ids `f'PHC_{n}' for n in range(1, 5)` that
`aggregate_models` and `broadcast_global_model` iterate over. -/
def corePhcs : List String :=
  (List.range' 1 4).map (fun n => "PHC_" ++ toString n)

/-- `order_by('-trained_at').first()`: the element with maximal key
(first listed on ties), `none` on the empty list. -/
def pickLatestBy (key : LocalModelR → ℤ) : List LocalModelR → Option LocalModelR
  | [] => none
  | x :: xs => some (xs.foldl (fun b a => if key b < key a then a else b) x)

/-- `LocalModel.objects.filter(phc_id=..., aggregated=False).order_by('-trained_at').first()`. -/
def latest_unaggregated_model (s : Store) (phc_id : String) : Option LocalModelR :=
  pickLatestBy (·.trained_at)
    (s.locals.filter (fun m => m.phc_id = phc_id && !m.aggregated))

/-- `LocalModel.objects.filter(phc_id=...).order_by('-trained_at').first()`. -/
def latest_model_by_trained_at (s : Store) (phc_id : String) : Option LocalModelR :=
  pickLatestBy (·.trained_at) (s.locals.filter (fun m => m.phc_id = phc_id))

/-- The collection loop of `aggregate_models` (ml_utils.py 1193-1215):
per core site, the latest unaggregated model in automatic mode, the
latest model regardless of aggregation state in manual mode. -/
def collectPhcModels (automatic : Bool) (s : Store) : List LocalModelR :=
  corePhcs.filterMap (fun phc =>
    if automatic then latest_unaggregated_model s phc
    else latest_model_by_trained_at s phc)

/-- Running total of `sample_count` over collected models. -/
def totalSamples (ms : List LocalModelR) : ℕ :=
  (ms.map (·.sample_count)).sum

/-- `sum(metric * sample_count) / total_samples if total_samples > 0
else 0.0` (ml_utils.py 1224-1227). -/
def weightedMetric (metric : LocalModelR → ℚ) (ms : List LocalModelR) : ℚ :=
  if 0 < totalSamples ms then
    (ms.map (fun m => metric m * (m.sample_count : ℚ))).sum / (totalSamples ms : ℚ)
  else 0

/-- `GlobalModel.objects.order_by('-version').first()`-based next
version: max existing version + 1, or 1 when there is none. -/
def next_global_version (s : Store) : ℕ :=
  (s.globals.foldl (fun b g => max b g.version) 0) + 1

/-- `should_trigger_global_aggregation` (ml_utils.py 360-385): at least
3 distinct sites (any site id in the store) with an unaggregated
LocalModel. -/
def should_trigger_global_aggregation (s : Store) : Bool × String × List String :=
  let unaggregated := s.locals.filter (fun m => !m.aggregated)
  if unaggregated.isEmpty then (false, "no_models", [])
  else
    let phc_ids := (unaggregated.map (·.phc_id)).dedup
    if 3 ≤ phc_ids.length then (true, "threshold_met", phc_ids)
    else (false, "insufficient_phcs", phc_ids)

/-- `broadcast_global_model` (ml_utils.py 421-444): record a
`ModelBroadcast` for each of the four core sites. -/
def broadcast_global_model (global_model_version : ℕ) (s : Store) : Store :=
  { s with broadcasts :=
      s.broadcasts ++ corePhcs.map (fun phc => ⟨phc, global_model_version⟩) }

/-- The structured result returned by `aggregate_models`. -/
structure AggResult where
  version : ℕ
  version_string : String
  accuracy : ℚ
  contributors : List String
  num_contributors : ℕ
  total_samples : ℕ
  automatic : Bool
deriving DecidableEq, Repr

/-- `aggregate_models` (ml_utils.py 1172-1299): collect models from the
four core sites, compute sample-weighted metrics, create the next
GlobalModel, mark the contributing LocalModels aggregated (matched by
document id), and broadcast.  Returns `none` (and leaves the store
untouched) when no site had an eligible model. -/
def aggregate_models (automatic : Bool) (s : Store) : Option AggResult × Store :=
  let ms := collectPhcModels automatic s
  if ms.isEmpty then (none, s)
  else
    let total := totalSamples ms
    let acc := weightedMetric (·.accuracy) ms
    let prec := weightedMetric (·.precisionV) ms
    let recl := weightedMetric (·.recallV) ms
    let f1 := weightedMetric (·.f1_score) ms
    let nv := next_global_version s
    let vs := generate_global_version_string nv
    let contributors := ms.map (·.phc_id)
    let g : GlobalModelR :=
      { version := nv, version_string := vs
        accuracy := pyRound 4 acc
        contributors := contributors
        contributor_versions := ms.map (fun m => (m.phc_id, m.version_string))
        wPrecision := pyRound 4 prec, wRecall := pyRound 4 recl, wF1 := pyRound 4 f1
        total_samples := total
        aggregation_triggered_by := if automatic then "automatic" else "manual" }
    let collectedIds := ms.map (·.id)
    let locals2 := s.locals.map (fun m =>
      if collectedIds.contains m.id then
        { m with aggregated := true, aggregated_in_version := some nv }
      else m)
    let s2 := broadcast_global_model nv
      { s with globals := s.globals ++ [g], locals := locals2 }
    (some { version := nv, version_string := vs, accuracy := pyRound 4 acc
            contributors := contributors, num_contributors := ms.length
            total_samples := total, automatic := automatic }, s2)

/-- `try_automatic_aggregation` (ml_utils.py 1032-1041): aggregate (in
automatic mode) only when the trigger check fires. -/
def try_automatic_aggregation (s : Store) : Option AggResult × Store :=
  if (should_trigger_global_aggregation s).1 then aggregate_models true s
  else (none, s)

/-!
## §4.5 Drift Detector (`detect_model_drift`, ml_utils.py 88-167)
-/

/-- Insert into a version-descending list. -/
def insertVersionDesc (m : LocalModelR) : List LocalModelR → List LocalModelR
  | [] => [m]
  | x :: xs =>
      if x.version ≤ m.version then m :: x :: xs else x :: insertVersionDesc m xs

/-- Sort by version, descending (`order_by('-version')`). -/
def sortVersionDesc : List LocalModelR → List LocalModelR
  | [] => []
  | x :: xs => insertVersionDesc x (sortVersionDesc xs)

/-- A site's models in `order_by('-version')` order. -/
def siteModelsByVersionDesc (s : Store) (phc_id : String) : List LocalModelR :=
  sortVersionDesc (s.locals.filter (fun m => m.phc_id = phc_id))

/-- `get_latest_local_model` (ml_utils.py 33-47):
`filter(phc_id=...).order_by('-version').first()`. -/
def get_latest_local_model (s : Store) (phc_id : String) : Option LocalModelR :=
  (siteModelsByVersionDesc s phc_id).head?

/-- The dict returned by `detect_model_drift`, restricted to the fields
the claims inspect.  In the `insufficient_history` case the source dict
carries no accuracy fields; they are zero here. -/
structure DriftResult where
  drift_detected : Bool
  reason : Option String
  accuracy_drop_percentage : ℚ
  previous_accuracy : ℚ
  current_accuracy : ℚ
  alert_created : Bool
deriving DecidableEq, Repr

/-- `detect_model_drift` (ml_utils.py 88-167): compare the two most
recent model versions of the site; flag drift when the percentage
accuracy drop exceeds 10, emitting a MODEL_DRIFT alert whose severity
is HIGH above a 20-point drop, MEDIUM otherwise. -/
def detect_model_drift (s : Store) (phc_id : String) : DriftResult × Store :=
  match siteModelsByVersionDesc s phc_id with
  | latest :: previous :: _ =>
      let accuracy_drop := previous.accuracy - latest.accuracy
      let dropPct := if 0 < previous.accuracy
                     then accuracy_drop / previous.accuracy * 100 else 0
      let drift := decide (10 < dropPct)
      let s2 := if drift then
          s.addAlert { phc_id := phc_id, alert_type := "MODEL_DRIFT"
                       severity := if 20 < dropPct then "HIGH" else "MEDIUM" }
        else s
      ({ drift_detected := drift, reason := none
         accuracy_drop_percentage := pyRound 2 dropPct
         previous_accuracy := previous.accuracy
         current_accuracy := latest.accuracy
         alert_created := drift }, s2)
  | _ =>
      ({ drift_detected := false, reason := some "insufficient_history"
         accuracy_drop_percentage := 0, previous_accuracy := 0
         current_accuracy := 0, alert_created := false }, s)

/-!
## §4.6 Composite Risk Scorer (`calculate_composite_risk_score`, ml_utils.py 174-318)
-/

/-- Python substring test `needle in hay` on character lists. -/
def listInfixB (needle : List Char) : List Char → Bool
  | [] => needle.isEmpty
  | c :: rest => needle.isPrefixOf (c :: rest) || listInfixB needle rest

/-- Lower-case character list of a string (Python `.lower()`). -/
def lowerStr (s : String) : List Char := s.data.map Char.toLower

/-- `disease_keywords` (ml_utils.py 225). -/
def disease_keywords : List String :=
  ["fever", "malaria", "typhoid", "dengue", "influenza"]

/-- `any(keyword.lower() in p.disease_label.lower() for keyword in
disease_keywords)` (ml_utils.py 226-229). -/
def keywordMatch (disease_label : String) : Bool :=
  disease_keywords.any (fun k => listInfixB (lowerStr k) (lowerStr disease_label))

/-- Abnormal white-cell count: `p.wbc_count < 4500 or p.wbc_count >
11000` (ml_utils.py 236-239). -/
def abnormalWbc (p : PatientR) : Bool :=
  p.wbc_count < 4500 || 11000 < p.wbc_count

/-- The dict returned by `calculate_composite_risk_score`, restricted
to the fields the claims inspect. -/
structure CompositeRiskResult where
  risk_score : ℚ
  severity : String
  reason : Option String
  fever_percentage : ℚ
  positive_predictions_percentage : ℚ
  abnormal_wbc_ratio : ℚ
  total_patients : ℕ
  alert_created : Bool
deriving DecidableEq, Repr

/-- `calculate_composite_risk_score` (ml_utils.py 174-318).  Note the
source gates the keyword-match count on the existence of a latest local
model for the site (`if latest_model:`); with no model the count stays
0 whatever the labels say. -/
def calculate_composite_risk_score (s : Store) (phc_id : String) :
    CompositeRiskResult × Store :=
  let patients := s.patients.filter (fun p => p.phc_id = phc_id)
  if patients.isEmpty then
    ({ risk_score := 0, severity := "LOW", reason := some "no_patients"
       fever_percentage := 0, positive_predictions_percentage := 0
       abnormal_wbc_ratio := 0, total_patients := 0, alert_created := false }, s)
  else
    let total := patients.length
    let fever_cases := (patients.filter (fun p => p.fever = 1)).length
    let fever_percentage : ℚ := (fever_cases : ℚ) / (total : ℚ) * 100
    let fever_component := fever_percentage / 100 * (4/10) * 100
    let positive_predictions :=
      match get_latest_local_model s phc_id with
      | some _ => (patients.filter (fun p => keywordMatch p.disease_label)).length
      | none => 0
    let positive_predictions_percentage : ℚ :=
      (positive_predictions : ℚ) / (total : ℚ) * 100
    let predictions_component := positive_predictions_percentage / 100 * (3/10) * 100
    let abnormal_wbc := (patients.filter abnormalWbc).length
    let abnormal_wbc_ratio : ℚ := (abnormal_wbc : ℚ) / (total : ℚ) * 100
    let wbc_component := abnormal_wbc_ratio / 100 * (3/10) * 100
    let composite_score :=
      pymax 0 (pymin 100 (fever_component + predictions_component + wbc_component))
    let severity := if composite_score < 30 then "LOW"
                    else if composite_score < 60 then "MEDIUM" else "HIGH"
    let s2 := s.addAlert { phc_id := phc_id, alert_type := "COMPOSITE_RISK"
                           severity := severity }
    ({ risk_score := pyRound 2 composite_score, severity := severity
       reason := none
       fever_percentage := pyRound 2 fever_percentage
       positive_predictions_percentage := pyRound 2 positive_predictions_percentage
       abnormal_wbc_ratio := pyRound 2 abnormal_wbc_ratio
       total_patients := total, alert_created := true }, s2)

/-- The composite score exactly as claim C6 words it (for comparison
with the source): 40% of the fever percentage plus 30% of the
disease-keyword-match percentage plus 30% of the abnormal-WBC
percentage, clamped to [0, 100] — with no dependence on whether the
site has a trained model. -/
def composite_risk_claimFormula (patients : List PatientR) : ℚ :=
  let total := patients.length
  let feverPct : ℚ := ((patients.filter (fun p => p.fever = 1)).length : ℚ) / (total : ℚ) * 100
  let keywordPct : ℚ := ((patients.filter (fun p => keywordMatch p.disease_label)).length : ℚ) / (total : ℚ) * 100
  let wbcPct : ℚ := ((patients.filter abnormalWbc).length : ℚ) / (total : ℚ) * 100
  pymax 0 (pymin 100 (4/10 * feverPct + 3/10 * keywordPct + 3/10 * wbcPct))

/-!
## §4.7 Outbreak Detector (`detect_fever_outbreak`, ml_utils.py 1302-1413)
-/

/-- Insert into an ascending integer list. -/
def insertAsc (d : ℤ) : List ℤ → List ℤ
  | [] => [d]
  | x :: xs => if d ≤ x then d :: x :: xs else x :: insertAsc d xs

/-- Sort integers ascending (pandas `sort_values('date')`). -/
def sortAsc : List ℤ → List ℤ
  | [] => []
  | x :: xs => insertAsc x (sortAsc xs)

/-- `df.groupby('date')['fever'].sum()` then `sort_values('date')`:
the per-day fever totals, in date order. -/
def dailyFeverCounts (ps : List PatientR) : List (ℤ × ℕ) :=
  (sortAsc (ps.map (·.created_at)).dedup).map (fun d =>
    (d, ((ps.filter (fun p => p.created_at = d)).map (·.fever)).sum))

/-- Mean of a rational list (0 on the empty list, matching the `ℚ`
convention `x / 0 = 0`). -/
def listMean (xs : List ℚ) : ℚ := xs.sum / (xs.length : ℚ)

/-- The length-`w` windows of a list, oldest first. -/
def windows (w : ℕ) (xs : List ℚ) : List (List ℚ) :=
  if xs.length < w then []
  else (List.range (xs.length - w + 1)).map (fun i => (xs.drop i).take w)

/-- `series.rolling(window=w).mean()` followed by `.dropna()`: the mean
of each full window. -/
def rollingMeans (w : ℕ) (xs : List ℚ) : List ℚ :=
  (windows w xs).map listMean

/-- pandas `series.std()` squared: the sample variance with `ddof=1`,
`none` when the series has fewer than two points (where pandas yields
NaN). -/
def sampleVariance (xs : List ℚ) : Option ℚ :=
  if xs.length < 2 then none
  else
    let μ := listMean xs
    some ((xs.map (fun x => (x - μ) ^ 2)).sum / ((xs.length : ℚ) - 1))

/-- `abs(z) > c` for `z = zNum / √v`, expressed in `ℚ` as
`zNum² > c²·v`; `false` on the guarded branch (`v` zero or undefined),
where the source sets `z = 0`. -/
def absZGt (c zNum : ℚ) (variance : Option ℚ) : Bool :=
  match variance with
  | none => false
  | some v => if v = 0 then false else decide (c ^ 2 * v < zNum ^ 2)

/-- The dict returned by `detect_fever_outbreak`, restricted to the
fields the claims inspect.  The real-valued z-score is represented by
its defining data: numerator `latest − rolling_mean` and the variance
(squared `rolling_std`) of the rolling series; `z_is_zero` marks the
guarded branch where the source reports `z_score = 0.0`. -/
structure OutbreakResult where
  outbreak_flag : Bool
  z_is_zero : Bool
  zNum : ℚ
  zVariance : Option ℚ
  sample_size : ℕ
  error : Option String
deriving DecidableEq, Repr

/-- `detect_fever_outbreak` (ml_utils.py 1302-1413): bucket the last 14
days of patients by day, require at least `lookback_days` bucketed
days, compute the rolling-mean series and its mean/sample-std, and
z-score the latest day against them; alert (type FEVER_OUTBREAK, the
model default) when `|z| > 2`, severity HIGH when `|z| > 3`, else
MEDIUM. -/
def detect_fever_outbreak (now : ℤ) (s : Store) (phc_id : String)
    (lookback_days : ℕ := 7) : OutbreakResult × Store :=
  let patients := s.patients.filter (fun p =>
    p.phc_id = phc_id && now - 14 ≤ p.created_at)
  if patients.isEmpty then
    ({ outbreak_flag := false, z_is_zero := true, zNum := 0, zVariance := none
       sample_size := 0, error := some "Not enough historical data" }, s)
  else
    let daily := dailyFeverCounts patients
    if daily.length < lookback_days then
      ({ outbreak_flag := false, z_is_zero := true, zNum := 0, zVariance := none
         sample_size := daily.length
         error := some ("Need at least " ++ toString lookback_days ++ " days of data") }, s)
    else
      let counts : List ℚ := daily.map (fun d => (d.2 : ℚ))
      let rolling := rollingMeans lookback_days counts
      let latest_fever := (counts.getLast?).getD 0
      let rolling_mean := listMean rolling
      let variance := sampleVariance rolling
      let zZero := match variance with
                   | none => true
                   | some v => decide (v = 0)
      let zNum := latest_fever - rolling_mean
      let flag := absZGt 2 zNum variance
      let s2 := if flag then
          s.addAlert { phc_id := phc_id, alert_type := "FEVER_OUTBREAK"
                       severity := if absZGt 3 zNum variance then "HIGH" else "MEDIUM" }
        else s
      ({ outbreak_flag := flag, z_is_zero := zZero, zNum := zNum
         zVariance := variance, sample_size := daily.length, error := none }, s2)

/-!
## §4.9 Risk Hierarchy Calculator (city_risk_calculator.py)
-/

/-- `PHC_CITY_MAPPING` (city_risk_calculator.py 21-27). -/
def PHC_CITY_MAPPING : List (String × String) :=
  [("PHC_1", "Pollachi"), ("PHC_2", "Pollachi"),
   ("PHC_3", "Thondamuthur"), ("PHC_4", "Thondamuthur"),
   ("PHC_5", "Kinathukadavu")]

/-- The breakdown returned by `calculate_phc_risk_score`, restricted to
the fields the claims inspect. -/
structure PhcRiskResult where
  phc_risk_score : ℚ
  high_severity_percentage : ℚ
  outbreak_flag_percentage : ℚ
  disease_prevalence_percentage : ℚ
  patient_count : ℕ
  note : Option String
deriving DecidableEq, Repr

/-- `calculate_phc_risk_score` (city_risk_calculator.py 32-135): over
the patients of the site created within the trailing window, score
0.4 × high-severity fraction + 0.3 × outbreak-flag fraction + 0.3 ×
disease-prevalence fraction, where both of the latter count the
patients whose `disease_label` differs from `'Healthy'`; capped at 1.
The RiskScore upsert only persists these same numbers and is not
modelled. -/
def calculate_phc_risk_score (now : ℤ) (s : Store) (phc_id : String)
    (time_window_days : ℤ := 7) : PhcRiskResult :=
  let cutoff := now - time_window_days
  let patients := s.patients.filter (fun p =>
    p.phc_id = phc_id && cutoff ≤ p.created_at)
  let total := patients.length
  if total = 0 then
    { phc_risk_score := 0, high_severity_percentage := 0
      outbreak_flag_percentage := 0, disease_prevalence_percentage := 0
      patient_count := 0, note := some "Insufficient data" }
  else
    let high_severity_count :=
      (patients.filter (fun p => p.severity_level = "High")).length
    let high_severity_pct : ℚ := (high_severity_count : ℚ) / (total : ℚ) * 100
    let disease_count :=
      (patients.filter (fun p => p.disease_label ≠ "Healthy")).length
    let outbreak_flag_pct : ℚ := (disease_count : ℚ) / (total : ℚ) * 100
    let disease_prevalence_pct : ℚ := (disease_count : ℚ) / (total : ℚ) * 100
    let score := pymin (high_severity_pct / 100 * (4/10)
                      + outbreak_flag_pct / 100 * (3/10)
                      + disease_prevalence_pct / 100 * (3/10)) 1
    { phc_risk_score := pyRound 4 score
      high_severity_percentage := pyRound 2 high_severity_pct
      outbreak_flag_percentage := pyRound 2 outbreak_flag_pct
      disease_prevalence_percentage := pyRound 2 disease_prevalence_pct
      patient_count := total, note := none }

/-- The breakdown returned by `calculate_city_risk_score`, restricted
to the fields the claims inspect. -/
structure CityRiskResult where
  city_risk_score : ℚ
  num_phcs : ℕ
  total_patients : ℕ
  note : Option String
deriving DecidableEq, Repr

/-- `calculate_city_risk_score` (city_risk_calculator.py 138-223):
patient-count-weighted average of the (reported, 4-digit-rounded) risk
scores of the city's sites, capped at 1. -/
def calculate_city_risk_score (now : ℤ) (s : Store) (city : String)
    (time_window_days : ℤ := 7) : CityRiskResult :=
  let phc_ids := (PHC_CITY_MAPPING.filter (fun pc => pc.2 = city)).map (·.1)
  if phc_ids.isEmpty then
    { city_risk_score := 0, num_phcs := 0, total_patients := 0
      note := some "City not found" }
  else
    let phc_risks := phc_ids.map
      (fun phc => calculate_phc_risk_score now s phc time_window_days)
    let total_patients : ℕ := (phc_risks.map (·.patient_count)).sum
    if total_patients = 0 then
      { city_risk_score := 0, num_phcs := phc_ids.length, total_patients := 0
        note := some "Insufficient patient data" }
    else
      let score := pymin ((phc_risks.map (fun r =>
          r.phc_risk_score * ((r.patient_count : ℚ) / (total_patients : ℚ)))).sum) 1
      { city_risk_score := pyRound 4 score, num_phcs := phc_ids.length
        total_patients := total_patients, note := none }

/-!
## Concrete instances used by witnesses and counterexamples
-/

/-- A local model record with the given identity, accuracy and sample
count, with neutral values elsewhere. -/
def mkLocal (docId : ℕ) (phc : String) (version : ℕ) (acc : ℚ)
    (samples : ℕ) (t : ℤ) (agg : Bool) : LocalModelR :=
  { id := docId, phc_id := phc, version := version
    version_string := generate_local_version_string phc version
    accuracy := acc, precisionV := acc, recallV := acc, f1_score := acc
    sample_count := samples, num_test_samples := 0, num_train_samples := 0
    weights_train_accuracy := 0, trained_at := t, aggregated := agg
    aggregated_in_version := none }

/-- An empty store. -/
def emptyStore : Store :=
  { patients := [], locals := [], globals := [], alerts := [], broadcasts := [] }

/-- Concrete evaluator input for the C1 witness. -/
def mdW : ModelData :=
  { predict := fun row => if 2 ≤ row.sum then 1 else 0
    decode := fun n => String.mk (List.replicate n 'a')
    X_test := [[1], [2], [3]], y_test := [0, 1, 1]
    X_train := [[0], [5]], y_train := [0, 1] }

/-- Store with three unaggregated models at the non-core sites PHC_5,
PHC_6 and PHC_7 (the risk-hierarchy topology includes PHC_5): the C4
counterexample. -/
def sPhc567 : Store :=
  { emptyStore with locals :=
      [mkLocal 1 "PHC_5" 1 (4/5) 50 1 false,
       mkLocal 2 "PHC_6" 1 (9/10) 60 2 false,
       mkLocal 3 "PHC_7" 1 (1/2) 70 3 false] }

/-- Store for the C5 aggregation example: three core sites with sample
counts 50/150/100 and accuracies 0.80/0.90/0.85. -/
def aggExampleStore : Store :=
  { emptyStore with locals :=
      [mkLocal 1 "PHC_1" 1 (80/100) 50 1 false,
       mkLocal 2 "PHC_2" 1 (90/100) 150 2 false,
       mkLocal 3 "PHC_3" 1 (85/100) 100 3 false] }

/-- Initial metadata for the C3 witness: 25 patients accumulated, lock
free. -/
def metaW : Option MetaR :=
  some { patients_since_last_training := 25, last_training_at := none
         training_in_progress := false }

/-- A training step that fails with a typed error result and leaves the
state alone: the C3 witness exercises a failure path. -/
def trainW : Option MetaR → TrainRes × Option MetaR :=
  fun st => (.err "No patient data available", st)

/-- Store for the C7 drift example: accuracies 0.90 (v1) then 0.75
(v2) at one site. -/
def driftExampleStore : Store :=
  { emptyStore with locals :=
      [mkLocal 1 "PHC_1" 1 (90/100) 40 1 true,
       mkLocal 2 "PHC_1" 2 (75/100) 45 2 false] }

/-- A patient record with the given clinical fields at day 0. -/
def mkPatient (phc : String) (fever : ℕ) (label sev : String)
    (wbc : ℚ) (day : ℤ := 0) : PatientR :=
  { phc_id := phc, fever := fever, disease_label := label
    severity_level := sev, wbc_count := wbc, created_at := day }

/-- C6 counterexample store: one keyword-labelled patient at a site
with no trained LocalModel. -/
def sNoModel : Store :=
  { emptyStore with patients := [mkPatient "PHC_1" 0 "malaria" "Low" 5000] }

/-- C6 example store: 10 patients — 4 with fever, 3 with
disease-keyword labels, 2 with abnormal WBC, 1 plain healthy — at a
site that has a trained LocalModel. -/
def sComposite10 : Store :=
  { emptyStore with
      patients :=
        List.replicate 4 (mkPatient "PHC_1" 1 "Healthy" "Low" 5000) ++
        List.replicate 3 (mkPatient "PHC_1" 0 "Dengue" "Low" 5000) ++
        List.replicate 2 (mkPatient "PHC_1" 0 "Healthy" "Low" 20000) ++
        [mkPatient "PHC_1" 0 "Healthy" "Low" 5000]
      locals := [mkLocal 1 "PHC_1" 1 (9/10) 40 1 false] }

/-- C8 witness store: eight consecutive days of patients at one site,
no fever on days 0-6 and ten fever cases on day 7. -/
def outbreakStore : Store :=
  { emptyStore with patients :=
      (List.range 7).map (fun d => mkPatient "PHC_2" 0 "Healthy" "Low" 5000 (d : ℤ))
      ++ List.replicate 10 (mkPatient "PHC_2" 1 "Viral Fever" "High" 5000 7) }

/-- C9 witness store for the 0.48 city-risk example: PHC_1 with 3
patients (one non-Healthy, none high-severity → site risk 0.2) and
PHC_2 with 7 patients (all non-Healthy, none high-severity → site risk
0.6), both in Pollachi, so the sites carry weights 30% and 70% by
patient count. -/
def cityExampleStore : Store :=
  { emptyStore with patients :=
      [mkPatient "PHC_1" 0 "Dengue" "Low" 5000,
       mkPatient "PHC_1" 0 "Healthy" "Low" 5000,
       mkPatient "PHC_1" 0 "Healthy" "Low" 5000] ++
      List.replicate 7 (mkPatient "PHC_2" 0 "Dengue" "Low" 5000) }

/-- C10 witness store: unaggregated models at PHC_1, PHC_2, PHC_3 and
the non-core PHC_5. -/
def sCoreAndPhc5 : Store :=
  { emptyStore with locals :=
      [mkLocal 1 "PHC_1" 1 (4/5) 50 1 false,
       mkLocal 2 "PHC_2" 1 (9/10) 60 2 false,
       mkLocal 3 "PHC_3" 1 (1/2) 70 3 false,
       mkLocal 4 "PHC_5" 1 (3/5) 80 4 false] }

/-- The distinct site ids holding an unaggregated LocalModel. -/
def distinctUnaggSites (s : Store) : List String :=
  ((s.locals.filter (fun m => !m.aggregated)).map (·.phc_id)).dedup

/-- `true` iff the per-site metadata state has no stuck lock: the
record is absent or its `training_in_progress` flag is clear. -/
def lockClear : Option MetaR → Bool
  | some m => !m.training_in_progress
  | none => true

/-- The site-level risk exactly as claim C9 words it: 0.4 × the
high-severity fraction + 0.3 × the outbreak-flag fraction + 0.3 × the
disease-prevalence fraction — the latter two both the non-Healthy
fraction — capped at 1. -/
def phc_risk_claimFormula (patients : List PatientR) : ℚ :=
  let total := patients.length
  let hs : ℚ := ((patients.filter (fun p => p.severity_level = "High")).length : ℚ) / (total : ℚ)
  let nh : ℚ := ((patients.filter (fun p => p.disease_label ≠ "Healthy")).length : ℚ) / (total : ℚ)
  pymin (4/10 * hs + 3/10 * nh + 3/10 * nh) 1

/-- Claim C10's conjunction for one aggregation run over store `s`:
contributors only from the four core sites, foreign-site models left
untouched, broadcasts only to core sites, and every unaggregated
model's site (core or not) counted by the trigger check. -/
def aggregationCoreOnly (automatic : Bool) (s : Store) : Prop :=
  (∀ res, (aggregate_models automatic s).1 = some res →
     ∀ c ∈ res.contributors, c ∈ corePhcs)
  ∧ (∀ g ∈ (aggregate_models automatic s).2.globals,
       g ∈ s.globals ∨ ∀ c ∈ g.contributors, c ∈ corePhcs)
  ∧ (∀ m ∈ s.locals, m.phc_id ∉ corePhcs → m ∈ (aggregate_models automatic s).2.locals)
  ∧ (∀ b ∈ (aggregate_models automatic s).2.broadcasts,
       b ∈ s.broadcasts ∨ b.phc_id ∈ corePhcs)
  ∧ (∀ m ∈ s.locals, m.aggregated = false →
       m.phc_id ∈ (should_trigger_global_aggregation s).2.2)

/-- The patients `detect_fever_outbreak` works on: the site's patients
of the last 14 days. -/
def outbreakPatients (now : ℤ) (s : Store) (phc_id : String) : List PatientR :=
  s.patients.filter (fun p => p.phc_id = phc_id && now - 14 ≤ p.created_at)

/-- The bucketed daily fever series the outbreak detector builds. -/
def outbreakDaily (now : ℤ) (s : Store) (phc_id : String) : List (ℤ × ℕ) :=
  dailyFeverCounts (outbreakPatients now s phc_id)

/-- The rolling-mean series of the outbreak detector. -/
def outbreakRolling (now : ℤ) (s : Store) (phc_id : String) (lookback_days : ℕ) : List ℚ :=
  rollingMeans lookback_days ((outbreakDaily now s phc_id).map (fun d => (d.2 : ℚ)))

/-- The z-score numerator `latest − rolling_mean` of the outbreak
detector. -/
def outbreakZNum (now : ℤ) (s : Store) (phc_id : String) (lookback_days : ℕ) : ℚ :=
  (((outbreakDaily now s phc_id).map (fun d => (d.2 : ℚ))).getLast?).getD 0
    - listMean (outbreakRolling now s phc_id lookback_days)

/-- The squared `rolling_std` (sample variance of the rolling series)
of the outbreak detector; `none` where pandas yields NaN. -/
def outbreakVar (now : ℤ) (s : Store) (phc_id : String) (lookback_days : ℕ) : Option ℚ :=
  sampleVariance (outbreakRolling now s phc_id lookback_days)

/-- The site ids of a city per `PHC_CITY_MAPPING`. -/
def cityPhcIds (city : String) : List String :=
  (PHC_CITY_MAPPING.filter (fun pc => pc.2 = city)).map (·.1)

/-- The in-window patient total of a city: the sum of the patient
counts its sites report. -/
def cityTotalPatients (now : ℤ) (s : Store) (city : String) (w : ℤ) : ℕ :=
  ((cityPhcIds city).map
    (fun phc => (calculate_phc_risk_score now s phc w).patient_count)).sum

/-!
## Helper lemmas
-/

/-- Accuracy is invariant under an injective relabelling applied to both
the truth and the prediction vectors (the evaluator decodes both with
the label encoder before comparing). -/
theorem accuracy_score_map {α β : Type} [DecidableEq α] [DecidableEq β]
    (f : α → β) (hf : Function.Injective f) (yTrue yPred : List α) :
    accuracy_score (yTrue.map f) (yPred.map f) = accuracy_score yTrue yPred := by
  unfold accuracy_score
  rw [List.zip_map, List.length_map, List.filter_map, List.length_map]
  congr 3
  refine List.filter_congr ?_
  intro p _
  simp [Function.comp, Prod.map, hf.eq_iff]

/-- The witness decoder (a label per class index, all distinct) is
injective. -/
theorem mdW_decode_injective : Function.Injective mdW.decode := by
  intro a b h
  simp only [mdW] at h
  injection h with h2
  simpa using congrArg List.length h2

/-- `record_training_completion` always leaves the lock clear. -/
theorem lockClear_record (now : ℤ) (b : Bool) (st : Option MetaR) :
    lockClear (record_training_completion now b st) = true := by
  cases st <;> rfl

/-- Whatever the training call returns or does to the state, the inner
try of `handle_patient_creation` ends with a cleared lock. -/
theorem lockClear_runTrainingStep (now : ℤ) (reason : String)
    (train : Option MetaR → TrainRes × Option MetaR) (st : Option MetaR) :
    lockClear (runTrainingStep now reason train st).2 = true := by
  unfold runTrainingStep
  rcases h : train st with ⟨res, st4⟩
  cases res <;> exact lockClear_record now _ st4

/-- The maximum-by-key fold picks an element of the candidate list. -/
theorem foldlPick_mem (key : LocalModelR → ℤ) :
    ∀ (xs : List LocalModelR) (b : LocalModelR),
      xs.foldl (fun b a => if key b < key a then a else b) b ∈ b :: xs := by
  intro xs
  induction xs with
  | nil => intro b; simp
  | cons a xs ih =>
    intro b
    simp only [List.foldl_cons]
    have h := ih (if key b < key a then a else b)
    rcases List.mem_cons.mp h with h1 | h2
    · rw [h1]; split
      · exact List.mem_cons_of_mem _ (List.mem_cons_self _ _)
      · exact List.mem_cons_self _ _
    · exact List.mem_cons_of_mem _ (List.mem_cons_of_mem _ h2)

/-- `pickLatestBy` returns a member of its input. -/
theorem pickLatestBy_mem (key : LocalModelR → ℤ) (l : List LocalModelR)
    (m : LocalModelR) (h : pickLatestBy key l = some m) : m ∈ l := by
  cases l with
  | nil => simp [pickLatestBy] at h
  | cons x xs =>
    simp only [pickLatestBy, Option.some.injEq] at h
    rw [← h]
    exact foldlPick_mem key xs x

/-- `pickLatestBy` returns a value exactly on nonempty input. -/
theorem pickLatestBy_isSome (key : LocalModelR → ℤ) (l : List LocalModelR) :
    (pickLatestBy key l).isSome = !l.isEmpty := by
  cases l <;> rfl

/-- What `latest_unaggregated_model` returns: a stored model of that
site, unaggregated. -/
theorem latest_unaggregated_model_mem (s : Store) (phc : String)
    (m : LocalModelR) (h : latest_unaggregated_model s phc = some m) :
    m ∈ s.locals ∧ m.phc_id = phc ∧ m.aggregated = false := by
  have hm := pickLatestBy_mem _ _ _ h
  have h1 := List.mem_of_mem_filter hm
  have h2 := List.of_mem_filter hm
  simp only [Bool.and_eq_true, decide_eq_true_eq, Bool.not_eq_true'] at h2
  exact ⟨h1, h2.1, h2.2⟩

/-- What `latest_model_by_trained_at` returns: a stored model of that
site. -/
theorem latest_model_by_trained_at_mem (s : Store) (phc : String)
    (m : LocalModelR) (h : latest_model_by_trained_at s phc = some m) :
    m ∈ s.locals ∧ m.phc_id = phc := by
  have hm := pickLatestBy_mem _ _ _ h
  have h1 := List.mem_of_mem_filter hm
  have h2 := List.of_mem_filter hm
  simp only [decide_eq_true_eq] at h2
  exact ⟨h1, h2⟩

/-- Every model collected by the aggregation loop is a stored model of
one of the four core sites, unaggregated in automatic mode. -/
theorem collectPhcModels_mem (automatic : Bool) (s : Store) (m : LocalModelR)
    (h : m ∈ collectPhcModels automatic s) :
    m ∈ s.locals ∧ m.phc_id ∈ corePhcs
      ∧ (automatic = true → m.aggregated = false) := by
  unfold collectPhcModels at h
  rcases List.mem_filterMap.mp h with ⟨phc, hphc, hf⟩
  cases automatic with
  | true =>
    rw [if_pos rfl] at hf
    obtain ⟨h1, h2, h3⟩ := latest_unaggregated_model_mem s phc m hf
    exact ⟨h1, h2 ▸ hphc, fun _ => h3⟩
  | false =>
    rw [if_neg (by simp)] at hf
    obtain ⟨h1, h2⟩ := latest_model_by_trained_at_mem s phc m hf
    exact ⟨h1, h2 ▸ hphc, fun hc => by cases hc⟩

/-- If some core site holds an unaggregated model, the automatic
collection loop is nonempty. -/
theorem collect_auto_nonempty (s : Store)
    (hex : ∃ m ∈ s.locals, m.aggregated = false ∧ m.phc_id ∈ corePhcs) :
    collectPhcModels true s ≠ [] := by
  rcases hex with ⟨m, hm, hagg, hcore⟩
  intro hnil
  unfold collectPhcModels at hnil
  rw [List.filterMap_eq_nil_iff] at hnil
  have hnone := hnil _ hcore
  rw [if_pos rfl] at hnone
  have h2 : (latest_unaggregated_model s m.phc_id).isSome = true := by
    unfold latest_unaggregated_model
    rw [pickLatestBy_isSome]
    have hmem : m ∈ s.locals.filter (fun x => x.phc_id = m.phc_id && !x.aggregated) :=
      List.mem_filter.mpr ⟨hm, by simp [hagg]⟩
    cases hl : s.locals.filter (fun x => x.phc_id = m.phc_id && !x.aggregated) with
    | nil => rw [hl] at hmem; cases hmem
    | cons a l => rfl
  rw [hnone] at h2
  cases h2

/-- With at least three distinct unaggregated sites the trigger check
fires with reason `threshold_met`. -/
theorem trigger_eq_of_threshold (s : Store)
    (h3 : 3 ≤ (distinctUnaggSites s).length) :
    should_trigger_global_aggregation s = (true, "threshold_met", distinctUnaggSites s) := by
  unfold should_trigger_global_aggregation
  unfold distinctUnaggSites at h3 ⊢
  have hne : (s.locals.filter (fun m => !m.aggregated)).isEmpty = false := by
    cases hl : s.locals.filter (fun m => !m.aggregated) with
    | nil => rw [hl] at h3; simp at h3
    | cons a l => rfl
  simp only [hne, Bool.false_eq_true, if_false]
  rw [if_pos h3]

/-- With exactly two distinct unaggregated sites the trigger check
reports `insufficient_phcs`. -/
theorem trigger_eq_of_two (s : Store)
    (h2 : (distinctUnaggSites s).length = 2) :
    should_trigger_global_aggregation s
      = (false, "insufficient_phcs", distinctUnaggSites s) := by
  unfold should_trigger_global_aggregation
  unfold distinctUnaggSites at h2 ⊢
  have hne : (s.locals.filter (fun m => !m.aggregated)).isEmpty = false := by
    cases hl : s.locals.filter (fun m => !m.aggregated) with
    | nil => rw [hl] at h2; simp at h2
    | cons a l => rfl
  have hlt : ¬ 3 ≤ ((s.locals.filter (fun m => !m.aggregated)).map (·.phc_id)).dedup.length := by
    rw [h2]; omega
  simp only [hne, Bool.false_eq_true, if_false]
  rw [if_neg hlt]

/-- The composite-score arithmetic of `calculate_composite_risk_score`
(percentage scaled through the source's `pct/100 × weight × 100` dance)
equals the claim's direct `weight × pct` form. -/
theorem composite_arith (f k w t : ℚ) :
    f / t * 100 / 100 * (4/10) * 100 + k / t * 100 / 100 * (3/10) * 100
      + w / t * 100 / 100 * (3/10) * 100
    = 4/10 * (f / t * 100) + 3/10 * (k / t * 100) + 3/10 * (w / t * 100) := by
  ring

/-- The site-risk arithmetic of `calculate_phc_risk_score` equals the
claim's direct fraction form. -/
theorem phcRisk_arith (c d t : ℚ) :
    c / t * 100 / 100 * (4/10) + d / t * 100 / 100 * (3/10)
      + d / t * 100 / 100 * (3/10)
    = 4/10 * (c / t) + 3/10 * (d / t) + 3/10 * (d / t) := by
  ring

/-!
## The claims
-/

/-- C1: for every successful training run, the accuracy persisted on
the newly created LocalModel is the accuracy of the model's predictions
on the held-out test split `X_test` against `y_test` (to 4 decimals, as
the evaluator reports it) — never the training-split accuracy; the
train-split accuracy is stored alongside, inside the `weights` dict. -/
theorem persisted_accuracy_is_test_accuracy
    (md : ModelData) (hdec : Function.Injective md.decode)
    (phc : String) (docId : ℕ) (t : ℤ) (v : ℕ) :
    (train_federated_model_persist phc docId t v (evaluate_model md)).accuracy
      = pyRound 4 (accuracy_score md.y_test (md.X_test.map md.predict))
    ∧ (train_federated_model_persist phc docId t v (evaluate_model md)).weights_train_accuracy
      = pyRound 4 (accuracy_score md.y_train (md.X_train.map md.predict)) := by
  constructor <;>
  · simp only [train_federated_model_persist, evaluate_model]
    exact congrArg (pyRound 4) (accuracy_score_map md.decode hdec _ _)

/-- Witness for C1 at a concrete evaluator input. -/
theorem persisted_accuracy_is_test_accuracy_witness :
    Function.Injective mdW.decode
    ∧ ((train_federated_model_persist "PHC_1" 1 0 1 (evaluate_model mdW)).accuracy
        = pyRound 4 (accuracy_score mdW.y_test (mdW.X_test.map mdW.predict))
      ∧ (train_federated_model_persist "PHC_1" 1 0 1 (evaluate_model mdW)).weights_train_accuracy
        = pyRound 4 (accuracy_score mdW.y_train (mdW.X_train.map mdW.predict))) :=
  ⟨mdW_decode_injective,
   persisted_accuracy_is_test_accuracy mdW mdW_decode_injective "PHC_1" 1 0 1⟩

/-- C2: the data-leakage guard of `train_local_model` checks for the
literal column name `diagnosis`, not the label column `disease_label`
that `preprocess_data` actually uses as the target; a feature list
containing `disease_label` sails through every validation check and
reaches the model-fitting stage, while only the stale name `diagnosis`
is rejected. -/
theorem leakage_guard_misses_label_column :
    train_local_model_gate leakX leakY [labelColumn, "fever"] = .proceedToFit
    ∧ train_local_model_gate leakX leakY ["diagnosis", "fever"]
      = .failure "CRITICAL: diagnosis cannot be in feature_columns! Data leakage detected." :=
  ⟨by decide, by decide⟩

/-- C3: every `handle_patient_creation` invocation that acquires the
per-site training lock releases it by the time the call returns — on
the success path and on every failure path (typed error result or
raised exception) of the training call, whatever that call does to the
metadata state. -/
theorem training_lock_always_released (now : ℤ)
    (train : Option MetaR → TrainRes × Option MetaR) (st0 : Option MetaR)
    (hacq : acquiresLock now st0 = true) :
    lockClear (handle_patient_creation now train st0).2 = true := by
  simp only [acquiresLock] at hacq
  simp only [handle_patient_creation]
  rcases htr : should_trigger_local_training now (increment_patient_count st0)
    with ⟨⟨b, reason⟩, st2⟩
  rw [htr] at hacq
  simp only [htr]
  cases b with
  | false => simp at hacq
  | true =>
    cases st2 with
    | none => simp at hacq
    | some m =>
      simp only [Bool.true_and] at hacq
      have hm : m.training_in_progress = false := by
        simpa using hacq
      simp only [if_true, hm]
      exact lockClear_runTrainingStep now reason train _

/-- Witness for C3: a concrete acquiring call whose training fails with
a typed error result; the lock is clear afterwards. -/
theorem training_lock_always_released_witness :
    acquiresLock 0 metaW = true
    ∧ lockClear (handle_patient_creation 0 trainW metaW).2 = true :=
  ⟨by decide, training_lock_always_released 0 trainW metaW (by decide)⟩

/-- C4 (counterexample): three unaggregated models at the non-core
sites PHC_5, PHC_6, PHC_7 make the trigger check return `true` with
reason `threshold_met`, yet the automatic path creates no GlobalModel —
`aggregate_models` only collects from PHC_1..PHC_4 — contradicting the
claim that with 3 or more qualifying sites the automatic path creates a
GlobalModel. -/
theorem automatic_aggregation_nonCore_counterexample :
    (should_trigger_global_aggregation sPhc567).1 = true
    ∧ (should_trigger_global_aggregation sPhc567).2.1 = "threshold_met"
    ∧ (try_automatic_aggregation sPhc567).1 = none
    ∧ (try_automatic_aggregation sPhc567).2.globals = [] :=
  ⟨by decide, by decide, by decide, by decide⟩

/-- C4 (amended): with ≥ 3 distinct sites holding unaggregated models
the trigger check returns `true` with reason `threshold_met`; with
exactly 2 it reports `insufficient_phcs` and the automatic path
creates no GlobalModel and leaves the store untouched; and with ≥ 3
such sites of which at least one is among the four hard-coded sites
PHC_1..PHC_4, the automatic path creates exactly one new GlobalModel. -/
theorem automatic_aggregation_threshold (s : Store) :
    (3 ≤ (distinctUnaggSites s).length →
       should_trigger_global_aggregation s = (true, "threshold_met", distinctUnaggSites s))
    ∧ ((distinctUnaggSites s).length = 2 →
       should_trigger_global_aggregation s
           = (false, "insufficient_phcs", distinctUnaggSites s)
         ∧ try_automatic_aggregation s = (none, s))
    ∧ (3 ≤ (distinctUnaggSites s).length →
       (∃ m ∈ s.locals, m.aggregated = false ∧ m.phc_id ∈ corePhcs) →
       (try_automatic_aggregation s).2.globals.length = s.globals.length + 1) := by
  refine ⟨trigger_eq_of_threshold s, fun h2 => ⟨trigger_eq_of_two s h2, ?_⟩, ?_⟩
  · unfold try_automatic_aggregation
    rw [trigger_eq_of_two s h2]
    simp
  · intro h3 hex
    unfold try_automatic_aggregation
    rw [trigger_eq_of_threshold s h3]
    have hne := collect_auto_nonempty s hex
    show (aggregate_models true s).2.globals.length = s.globals.length + 1
    unfold aggregate_models
    rw [if_neg (by simpa [List.isEmpty_iff] using hne)]
    simp [broadcast_global_model]

/-- Witness for C4 (amended) at a store with three unaggregated core
sites. -/
theorem automatic_aggregation_threshold_witness :
    (3 ≤ (distinctUnaggSites aggExampleStore).length
      ∧ (∃ m ∈ aggExampleStore.locals, m.aggregated = false ∧ m.phc_id ∈ corePhcs))
    ∧ (try_automatic_aggregation aggExampleStore).2.globals.length
        = aggExampleStore.globals.length + 1 :=
  ⟨⟨by decide, by decide⟩,
   (automatic_aggregation_threshold aggExampleStore).2.2 (by decide) (by decide)⟩

/-- C5: for every aggregation over a nonempty collection of
contributing site models with positive total sample count, each
aggregated metric — the accuracy persisted on the GlobalModel and the
precision/recall/F1 recorded in its weights — is the sample-weighted
average Σ(site metric × site samples) / Σ(site samples), reported to 4
decimals; in particular sample counts (50, 150, 100) with accuracies
(0.80, 0.90, 0.85) yield aggregated accuracy 0.8667. -/
theorem aggregated_metrics_weighted (automatic : Bool) (s : Store)
    (hne : collectPhcModels automatic s ≠ [])
    (hpos : 0 < totalSamples (collectPhcModels automatic s)) :
    (((aggregate_models automatic s).1.map (·.accuracy)
        = some (pyRound 4
            ((((collectPhcModels automatic s).map
                (fun m => m.accuracy * (m.sample_count : ℚ))).sum)
              / (totalSamples (collectPhcModels automatic s) : ℚ))))
      ∧ (((aggregate_models automatic s).2.globals).getLast?.map
            (fun g => (g.accuracy, g.wPrecision, g.wRecall, g.wF1))
          = some
            (pyRound 4
              ((((collectPhcModels automatic s).map
                  (fun m => m.accuracy * (m.sample_count : ℚ))).sum)
                / (totalSamples (collectPhcModels automatic s) : ℚ)),
             pyRound 4
              ((((collectPhcModels automatic s).map
                  (fun m => m.precisionV * (m.sample_count : ℚ))).sum)
                / (totalSamples (collectPhcModels automatic s) : ℚ)),
             pyRound 4
              ((((collectPhcModels automatic s).map
                  (fun m => m.recallV * (m.sample_count : ℚ))).sum)
                / (totalSamples (collectPhcModels automatic s) : ℚ)),
             pyRound 4
              ((((collectPhcModels automatic s).map
                  (fun m => m.f1_score * (m.sample_count : ℚ))).sum)
                / (totalSamples (collectPhcModels automatic s) : ℚ)))))
    ∧ (aggregate_models true aggExampleStore).1.map
          (fun r => (r.version, r.version_string, r.accuracy, r.contributors,
                     r.num_contributors, r.total_samples, r.automatic))
        = some (1, "global_v1", 8667/10000, ["PHC_1", "PHC_2", "PHC_3"], 3, 300, true) := by
  have hval : ∀ f : LocalModelR → ℚ,
      weightedMetric f (collectPhcModels automatic s)
        = (((collectPhcModels automatic s).map
            (fun m => f m * (m.sample_count : ℚ))).sum)
          / (totalSamples (collectPhcModels automatic s) : ℚ) := by
    intro f
    unfold weightedMetric
    rw [if_pos hpos]
  have hcol : collectPhcModels true aggExampleStore
      = [mkLocal 1 "PHC_1" 1 (80/100) 50 1 false,
         mkLocal 2 "PHC_2" 1 (90/100) 150 2 false,
         mkLocal 3 "PHC_3" 1 (85/100) 100 3 false] := by with_unfolding_all decide
  refine ⟨⟨?_, ?_⟩, ?_⟩
  case refine_3 =>
    simp only [aggregate_models, hcol]
    norm_num [weightedMetric, totalSamples, mkLocal, pyRound, roundHalfEven,
      next_global_version, generate_global_version_string, aggExampleStore, emptyStore]
    decide
  · unfold aggregate_models
    rw [if_neg (by simpa [List.isEmpty_iff] using hne)]
    rw [hval]
    rfl
  · unfold aggregate_models
    rw [if_neg (by simpa [List.isEmpty_iff] using hne)]
    simp only [broadcast_global_model, List.getLast?_concat]
    rw [hval, hval, hval, hval]
    rfl

/-- Witness for C5 at the (50, 150, 100) / (0.80, 0.90, 0.85)
example store. -/
theorem aggregated_metrics_weighted_witness :
    (collectPhcModels true aggExampleStore ≠ []
      ∧ 0 < totalSamples (collectPhcModels true aggExampleStore))
    ∧ ((((aggregate_models true aggExampleStore).1.map (·.accuracy)
        = some (pyRound 4
            ((((collectPhcModels true aggExampleStore).map
                (fun m => m.accuracy * (m.sample_count : ℚ))).sum)
              / (totalSamples (collectPhcModels true aggExampleStore) : ℚ))))
      ∧ (((aggregate_models true aggExampleStore).2.globals).getLast?.map
            (fun g => (g.accuracy, g.wPrecision, g.wRecall, g.wF1))
          = some
            (pyRound 4
              ((((collectPhcModels true aggExampleStore).map
                  (fun m => m.accuracy * (m.sample_count : ℚ))).sum)
                / (totalSamples (collectPhcModels true aggExampleStore) : ℚ)),
             pyRound 4
              ((((collectPhcModels true aggExampleStore).map
                  (fun m => m.precisionV * (m.sample_count : ℚ))).sum)
                / (totalSamples (collectPhcModels true aggExampleStore) : ℚ)),
             pyRound 4
              ((((collectPhcModels true aggExampleStore).map
                  (fun m => m.recallV * (m.sample_count : ℚ))).sum)
                / (totalSamples (collectPhcModels true aggExampleStore) : ℚ)),
             pyRound 4
              ((((collectPhcModels true aggExampleStore).map
                  (fun m => m.f1_score * (m.sample_count : ℚ))).sum)
                / (totalSamples (collectPhcModels true aggExampleStore) : ℚ)))))
    ∧ (aggregate_models true aggExampleStore).1.map
          (fun r => (r.version, r.version_string, r.accuracy, r.contributors,
                     r.num_contributors, r.total_samples, r.automatic))
        = some (1, "global_v1", 8667/10000, ["PHC_1", "PHC_2", "PHC_3"], 3, 300, true)) :=
  ⟨⟨by with_unfolding_all decide, by with_unfolding_all decide⟩,
   aggregated_metrics_weighted true aggExampleStore
     (by with_unfolding_all decide) (by with_unfolding_all decide)⟩

/-- C6 (counterexample): a site holding one keyword-labelled patient
(`malaria`, no fever, normal WBC) but no trained LocalModel scores 0
(LOW), while the claimed formula gives 30: the keyword-match component
is gated on the existence of a latest local model, which the claim does
not allow for. -/
theorem composite_risk_counterexample :
    (calculate_composite_risk_score sNoModel "PHC_1").1.risk_score = 0
    ∧ composite_risk_claimFormula
        (sNoModel.patients.filter (fun p => p.phc_id = "PHC_1")) = 30
    ∧ (calculate_composite_risk_score sNoModel "PHC_1").1.risk_score
        ≠ pyRound 2 (composite_risk_claimFormula
            (sNoModel.patients.filter (fun p => p.phc_id = "PHC_1"))) :=
  ⟨by with_unfolding_all decide, by with_unfolding_all decide,
   by with_unfolding_all decide⟩

/-- C6 (amended): for every site with at least one patient record AND
at least one trained LocalModel, the composite risk score is 40% of the
fever percentage + 30% of the disease-keyword-match percentage + 30% of
the abnormal-WBC percentage, clamped to [0, 100] (reported to 2
decimals), with severity LOW below 30, MEDIUM below 60, else HIGH, and
an alert always created; in particular 10 patients with 4 fevers, 3
keyword matches and 2 abnormal WBC score 31.0 with severity MEDIUM. -/
theorem composite_risk_formula (s : Store) (phc : String)
    (hp : s.patients.filter (fun p => p.phc_id = phc) ≠ [])
    (hm : (get_latest_local_model s phc).isSome = true) :
    ((calculate_composite_risk_score s phc).1.risk_score
        = pyRound 2 (composite_risk_claimFormula
            (s.patients.filter (fun p => p.phc_id = phc)))
      ∧ (calculate_composite_risk_score s phc).1.severity
        = (if composite_risk_claimFormula (s.patients.filter (fun p => p.phc_id = phc)) < 30
           then "LOW"
           else if composite_risk_claimFormula (s.patients.filter (fun p => p.phc_id = phc)) < 60
           then "MEDIUM" else "HIGH")
      ∧ (calculate_composite_risk_score s phc).1.alert_created = true)
    ∧ ((calculate_composite_risk_score sComposite10 "PHC_1").1.risk_score = 31
      ∧ (calculate_composite_risk_score sComposite10 "PHC_1").1.severity = "MEDIUM") := by
  have hpe : (s.patients.filter (fun p => p.phc_id = phc)).isEmpty = false := by
    cases hl : s.patients.filter (fun p => p.phc_id = phc) with
    | nil => exact absurd hl hp
    | cons a l => rfl
  obtain ⟨lm, hlm⟩ := Option.isSome_iff_exists.mp hm
  refine ⟨?_, by with_unfolding_all decide, by with_unfolding_all decide⟩
  simp only [calculate_composite_risk_score, composite_risk_claimFormula, hpe,
    Bool.false_eq_true, if_false, hlm]
  rw [composite_arith]
  exact ⟨rfl, rfl, trivial⟩

/-- Witness for C6 (amended) at the 10-patient example store. -/
theorem composite_risk_formula_witness :
    (sComposite10.patients.filter (fun p => p.phc_id = "PHC_1") ≠ []
      ∧ (get_latest_local_model sComposite10 "PHC_1").isSome = true)
    ∧ (((calculate_composite_risk_score sComposite10 "PHC_1").1.risk_score
          = pyRound 2 (composite_risk_claimFormula
              (sComposite10.patients.filter (fun p => p.phc_id = "PHC_1")))
        ∧ (calculate_composite_risk_score sComposite10 "PHC_1").1.severity
          = (if composite_risk_claimFormula
                (sComposite10.patients.filter (fun p => p.phc_id = "PHC_1")) < 30
             then "LOW"
             else if composite_risk_claimFormula
                (sComposite10.patients.filter (fun p => p.phc_id = "PHC_1")) < 60
             then "MEDIUM" else "HIGH")
        ∧ (calculate_composite_risk_score sComposite10 "PHC_1").1.alert_created = true)
      ∧ ((calculate_composite_risk_score sComposite10 "PHC_1").1.risk_score = 31
        ∧ (calculate_composite_risk_score sComposite10 "PHC_1").1.severity = "MEDIUM")) :=
  ⟨⟨by with_unfolding_all decide, by with_unfolding_all decide⟩,
   composite_risk_formula sComposite10 "PHC_1"
     (by with_unfolding_all decide) (by with_unfolding_all decide)⟩

/-- C7: with at least two model versions at a site, the drift detector
computes `accuracy_drop_percentage = (previous − latest) / previous ×
100` (reported to 2 decimals), flags drift exactly when this exceeds
10, and emits a MODEL_DRIFT alert exactly then, with severity HIGH
above 20 and MEDIUM otherwise; with fewer than two versions it reports
`insufficient_history` and changes nothing.  Accuracies 0.90 then 0.75
give a 16.67-point drop, drift detected, severity MEDIUM. -/
theorem drift_detection (s : Store) (phc : String) :
    (∀ m1 m2 rest, siteModelsByVersionDesc s phc = m1 :: m2 :: rest →
      0 ≤ m2.accuracy →
      ((detect_model_drift s phc).1.accuracy_drop_percentage
          = pyRound 2 ((m2.accuracy - m1.accuracy) / m2.accuracy * 100)
        ∧ ((detect_model_drift s phc).1.drift_detected = true
            ↔ 10 < (m2.accuracy - m1.accuracy) / m2.accuracy * 100)
        ∧ (detect_model_drift s phc).2.alerts
            = s.alerts ++
              (if 10 < (m2.accuracy - m1.accuracy) / m2.accuracy * 100 then
                [{ phc_id := phc, alert_type := "MODEL_DRIFT",
                   severity := if 20 < (m2.accuracy - m1.accuracy) / m2.accuracy * 100
                               then "HIGH" else "MEDIUM" }]
               else [])))
    ∧ ((siteModelsByVersionDesc s phc).length < 2 →
        ((detect_model_drift s phc).1.drift_detected = false
          ∧ (detect_model_drift s phc).1.reason = some "insufficient_history"
          ∧ (detect_model_drift s phc).2 = s))
    ∧ ((detect_model_drift driftExampleStore "PHC_1").1.accuracy_drop_percentage = 1667/100
      ∧ (detect_model_drift driftExampleStore "PHC_1").1.drift_detected = true
      ∧ (detect_model_drift driftExampleStore "PHC_1").2.alerts
          = [{ phc_id := "PHC_1", alert_type := "MODEL_DRIFT", severity := "MEDIUM" }]) := by
  refine ⟨?_, ?_, by with_unfolding_all decide, by with_unfolding_all decide,
          by with_unfolding_all decide⟩
  · intro m1 m2 rest hlist hacc
    have hdrop : (if 0 < m2.accuracy
          then (m2.accuracy - m1.accuracy) / m2.accuracy * 100 else 0)
        = (m2.accuracy - m1.accuracy) / m2.accuracy * 100 := by
      by_cases h : 0 < m2.accuracy
      · rw [if_pos h]
      · have hz : m2.accuracy = 0 := le_antisymm (not_lt.mp h) hacc
        rw [if_neg h, hz, div_zero, zero_mul]
    simp only [detect_model_drift, hlist]
    rw [hdrop]
    refine ⟨rfl, by simp, ?_⟩
    by_cases h : 10 < (m2.accuracy - m1.accuracy) / m2.accuracy * 100
    · simp [h, Store.addAlert]
    · simp [h, Store.addAlert]
  · intro hlen
    rcases hl : siteModelsByVersionDesc s phc with _ | ⟨a, _ | ⟨b, l2⟩⟩
    · simp [detect_model_drift, hl]
    · simp [detect_model_drift, hl]
    · exfalso
      rw [hl] at hlen
      simp at hlen
      omega

/-- Witness for C7 at the 0.90 → 0.75 example store. -/
theorem drift_detection_witness :
    (siteModelsByVersionDesc driftExampleStore "PHC_1"
        = [mkLocal 2 "PHC_1" 2 (75/100) 45 2 false,
           mkLocal 1 "PHC_1" 1 (90/100) 40 1 true]
      ∧ (0:ℚ) ≤ (mkLocal 1 "PHC_1" 1 (90/100) 40 1 true).accuracy)
    ∧ ((detect_model_drift driftExampleStore "PHC_1").1.accuracy_drop_percentage
        = pyRound 2 (((mkLocal 1 "PHC_1" 1 (90/100) 40 1 true).accuracy
            - (mkLocal 2 "PHC_1" 2 (75/100) 45 2 false).accuracy)
          / (mkLocal 1 "PHC_1" 1 (90/100) 40 1 true).accuracy * 100)
      ∧ ((detect_model_drift driftExampleStore "PHC_1").1.drift_detected = true
          ↔ 10 < ((mkLocal 1 "PHC_1" 1 (90/100) 40 1 true).accuracy
              - (mkLocal 2 "PHC_1" 2 (75/100) 45 2 false).accuracy)
            / (mkLocal 1 "PHC_1" 1 (90/100) 40 1 true).accuracy * 100)
      ∧ (detect_model_drift driftExampleStore "PHC_1").2.alerts
          = driftExampleStore.alerts ++
            (if 10 < ((mkLocal 1 "PHC_1" 1 (90/100) 40 1 true).accuracy
                - (mkLocal 2 "PHC_1" 2 (75/100) 45 2 false).accuracy)
              / (mkLocal 1 "PHC_1" 1 (90/100) 40 1 true).accuracy * 100 then
              [{ phc_id := "PHC_1", alert_type := "MODEL_DRIFT",
                 severity := if 20 < ((mkLocal 1 "PHC_1" 1 (90/100) 40 1 true).accuracy
                     - (mkLocal 2 "PHC_1" 2 (75/100) 45 2 false).accuracy)
                   / (mkLocal 1 "PHC_1" 1 (90/100) 40 1 true).accuracy * 100
                   then "HIGH" else "MEDIUM" }]
             else [])) := by
  have h1 : siteModelsByVersionDesc driftExampleStore "PHC_1"
      = [mkLocal 2 "PHC_1" 2 (75/100) 45 2 false,
         mkLocal 1 "PHC_1" 1 (90/100) 40 1 true] := by with_unfolding_all decide
  have h2 : (0:ℚ) ≤ (mkLocal 1 "PHC_1" 1 (90/100) 40 1 true).accuracy := by
    with_unfolding_all decide
  exact ⟨⟨h1, h2⟩, (drift_detection driftExampleStore "PHC_1").1 _ _ _ h1 h2⟩

/-- `absZGt` characterised: `|z| > c` holds iff the variance exists, is
nonzero, and `c²·variance < (latest − mean)²` — the exact real-number
condition `|latest − mean| / √variance > c`. -/
theorem absZGt_true_iff (c zNum : ℚ) (vOpt : Option ℚ) :
    absZGt c zNum vOpt = true
      ↔ ∃ v, vOpt = some v ∧ v ≠ 0 ∧ c ^ 2 * v < zNum ^ 2 := by
  cases vOpt with
  | none => simp [absZGt]
  | some v =>
    by_cases hv : v = 0 <;> simp [absZGt, hv]

/-- C8: with at least one patient in the 14-day window and at least
`lookback_days` bucketed days, the outbreak flag is set exactly when
`|z| > 2` for `z = (latest − rolling_mean)/rolling_std` (expressed via
`4·variance < (latest − rolling_mean)²` with nonzero variance, since
`rolling_std = √variance`); the reported z-score is 0 whenever the
variance is zero or undefined; an Alert is emitted exactly when the
flag is set — severity HIGH when `|z| > 3`, MEDIUM otherwise; and with
fewer than `lookback_days` bucketed days the detector reports
insufficient history instead of failing. -/
theorem fever_outbreak_zscore (now : ℤ) (s : Store) (phc : String) (lookback : ℕ)
    (hp : outbreakPatients now s phc ≠ []) :
    (lookback ≤ (outbreakDaily now s phc).length →
      (((detect_fever_outbreak now s phc lookback).1.outbreak_flag = true
          ↔ ∃ v, outbreakVar now s phc lookback = some v ∧ v ≠ 0
              ∧ 2 ^ 2 * v < (outbreakZNum now s phc lookback) ^ 2)
        ∧ ((outbreakVar now s phc lookback = none
              ∨ outbreakVar now s phc lookback = some 0) →
            (detect_fever_outbreak now s phc lookback).1.z_is_zero = true
            ∧ (detect_fever_outbreak now s phc lookback).1.outbreak_flag = false)
        ∧ ((detect_fever_outbreak now s phc lookback).1.outbreak_flag = false →
            (detect_fever_outbreak now s phc lookback).2 = s)
        ∧ ((detect_fever_outbreak now s phc lookback).1.outbreak_flag = true →
            ∃ sev, (detect_fever_outbreak now s phc lookback).2.alerts
                = s.alerts
                  ++ [{ phc_id := phc, alert_type := "FEVER_OUTBREAK", severity := sev }]
              ∧ ∀ v, outbreakVar now s phc lookback = some v →
                  ((sev = "HIGH" ↔ 3 ^ 2 * v < (outbreakZNum now s phc lookback) ^ 2)
                    ∧ (sev = "HIGH" ∨ sev = "MEDIUM")))
        ∧ (detect_fever_outbreak now s phc lookback).1.error = none))
    ∧ ((outbreakDaily now s phc).length < lookback →
        ((detect_fever_outbreak now s phc lookback).1.outbreak_flag = false
          ∧ (detect_fever_outbreak now s phc lookback).1.error
              = some ("Need at least " ++ toString lookback ++ " days of data")
          ∧ (detect_fever_outbreak now s phc lookback).2 = s)) := by
  simp only [outbreakPatients] at hp
  have hpe : ¬ ((s.patients.filter
      (fun p => p.phc_id = phc && now - 14 ≤ p.created_at)).isEmpty = true) :=
    fun hx => hp (List.isEmpty_iff.mp hx)
  constructor
  · intro hlook
    simp only [outbreakDaily, outbreakPatients] at hlook
    simp only [detect_fever_outbreak, outbreakVar, outbreakZNum, outbreakRolling,
      outbreakDaily, outbreakPatients]
    rw [if_neg hpe, if_neg (not_lt.mpr hlook)]
    dsimp only
    refine ⟨absZGt_true_iff 2 _ _, ?_, ?_, ?_, rfl⟩
    · rintro (hv | hv) <;> rw [hv] <;> simp [absZGt]
    · intro hflag
      rw [hflag]
      simp
    · intro hflag
      rcases (absZGt_true_iff 2 _ _).mp hflag with ⟨v0, hv0, hv0ne, _⟩
      rw [hflag]
      refine ⟨_, rfl, ?_⟩
      intro v hv
      rw [hv] at hv0
      have hvne : v ≠ 0 := by
        have hveq : v0 = v := by injection hv0 with h; exact h.symm
        exact hveq ▸ hv0ne
      rw [hv]
      simp only [absZGt, if_neg hvne]
      by_cases h9 : 3 ^ 2 * v < (outbreakZNum now s phc lookback) ^ 2
      · simp only [outbreakZNum, outbreakRolling, outbreakDaily, outbreakPatients] at h9
        rw [if_pos (decide_eq_true h9)]
        exact ⟨Iff.intro (fun _ => h9) (fun _ => rfl), Or.inl rfl⟩
      · simp only [outbreakZNum, outbreakRolling, outbreakDaily, outbreakPatients] at h9
        rw [if_neg (fun hc => h9 (of_decide_eq_true hc))]
        exact ⟨Iff.intro (fun hme => absurd hme (by decide))
                  (fun hlt => absurd hlt h9), Or.inr rfl⟩
  · intro hlen
    simp only [outbreakDaily, outbreakPatients] at hlen
    simp only [detect_fever_outbreak]
    rw [if_neg hpe, if_pos hlen]
    exact ⟨rfl, rfl, rfl⟩

/-- Witness for C8 at a store with seven quiet days followed by a
ten-fever day. -/
theorem fever_outbreak_zscore_witness :
    outbreakPatients 7 outbreakStore "PHC_2" ≠ []
    ∧ ((7 ≤ (outbreakDaily 7 outbreakStore "PHC_2").length →
      (((detect_fever_outbreak 7 outbreakStore "PHC_2" 7).1.outbreak_flag = true
          ↔ ∃ v, outbreakVar 7 outbreakStore "PHC_2" 7 = some v ∧ v ≠ 0
              ∧ 2 ^ 2 * v < (outbreakZNum 7 outbreakStore "PHC_2" 7) ^ 2)
        ∧ ((outbreakVar 7 outbreakStore "PHC_2" 7 = none
              ∨ outbreakVar 7 outbreakStore "PHC_2" 7 = some 0) →
            (detect_fever_outbreak 7 outbreakStore "PHC_2" 7).1.z_is_zero = true
            ∧ (detect_fever_outbreak 7 outbreakStore "PHC_2" 7).1.outbreak_flag = false)
        ∧ ((detect_fever_outbreak 7 outbreakStore "PHC_2" 7).1.outbreak_flag = false →
            (detect_fever_outbreak 7 outbreakStore "PHC_2" 7).2 = outbreakStore)
        ∧ ((detect_fever_outbreak 7 outbreakStore "PHC_2" 7).1.outbreak_flag = true →
            ∃ sev, (detect_fever_outbreak 7 outbreakStore "PHC_2" 7).2.alerts
                = outbreakStore.alerts
                  ++ [{ phc_id := "PHC_2", alert_type := "FEVER_OUTBREAK", severity := sev }]
              ∧ ∀ v, outbreakVar 7 outbreakStore "PHC_2" 7 = some v →
                  ((sev = "HIGH" ↔ 3 ^ 2 * v < (outbreakZNum 7 outbreakStore "PHC_2" 7) ^ 2)
                    ∧ (sev = "HIGH" ∨ sev = "MEDIUM")))
        ∧ (detect_fever_outbreak 7 outbreakStore "PHC_2" 7).1.error = none))
    ∧ ((outbreakDaily 7 outbreakStore "PHC_2").length < 7 →
        ((detect_fever_outbreak 7 outbreakStore "PHC_2" 7).1.outbreak_flag = false
          ∧ (detect_fever_outbreak 7 outbreakStore "PHC_2" 7).1.error
              = some ("Need at least " ++ toString 7 ++ " days of data")
          ∧ (detect_fever_outbreak 7 outbreakStore "PHC_2" 7).2 = outbreakStore))) :=
  ⟨by with_unfolding_all decide,
   fever_outbreak_zscore 7 outbreakStore "PHC_2" 7 (by with_unfolding_all decide)⟩

/-- C9: for every site with at least one patient in the trailing
window, the site risk is 0.4 × high-severity fraction + 0.3 ×
outbreak-flag fraction + 0.3 × disease-prevalence fraction — the latter
two both the non-Healthy fraction — capped at 1 (reported to 4
decimals); city risk is the patient-count-weighted average of the
constituent site risks, capped at 1; in particular two Pollachi sites
weighted 30/70 by patient count with risks 0.2 and 0.6 give city risk
0.48. -/
theorem risk_hierarchy_weighted (now : ℤ) (s : Store) (phc city : String) (w : ℤ) :
    (s.patients.filter (fun p => p.phc_id = phc && now - w ≤ p.created_at) ≠ [] →
      (calculate_phc_risk_score now s phc w).phc_risk_score
        = pyRound 4 (phc_risk_claimFormula
            (s.patients.filter (fun p => p.phc_id = phc && now - w ≤ p.created_at))))
    ∧ (cityPhcIds city ≠ [] → cityTotalPatients now s city w ≠ 0 →
      (calculate_city_risk_score now s city w).city_risk_score
        = pyRound 4 (pymin (((cityPhcIds city).map (fun p2 =>
            (calculate_phc_risk_score now s p2 w).phc_risk_score
              * (((calculate_phc_risk_score now s p2 w).patient_count : ℚ)
                 / (cityTotalPatients now s city w : ℚ)))).sum) 1))
    ∧ ((calculate_phc_risk_score 0 cityExampleStore "PHC_1" 7).phc_risk_score = 2/10
      ∧ (calculate_phc_risk_score 0 cityExampleStore "PHC_2" 7).phc_risk_score = 6/10
      ∧ (calculate_city_risk_score 0 cityExampleStore "Pollachi" 7).city_risk_score
          = 48/100) := by
  refine ⟨?_, ?_, by with_unfolding_all decide, by with_unfolding_all decide,
          by with_unfolding_all decide⟩
  · intro hp
    have hlen0 : ¬ ((s.patients.filter
        (fun p => p.phc_id = phc && now - w ≤ p.created_at)).length = 0) := by
      intro h0
      exact hp (List.length_eq_zero.mp h0)
    simp only [calculate_phc_risk_score, phc_risk_claimFormula]
    rw [if_neg hlen0, phcRisk_arith]
  · intro hcne htot
    have hce : ¬ (((PHC_CITY_MAPPING.filter (fun pc => pc.2 = city)).map (·.1)).isEmpty
        = true) := by
      intro hx
      exact hcne (by simpa [cityPhcIds] using List.isEmpty_iff.mp hx)
    simp only [calculate_city_risk_score, cityPhcIds, cityTotalPatients,
      List.map_map, Function.comp_def] at htot ⊢
    rw [if_neg hce, if_neg htot]

/-- Witness for C9 at the 3-patient / 7-patient Pollachi store. -/
theorem risk_hierarchy_weighted_witness :
    (cityExampleStore.patients.filter
        (fun p => p.phc_id = "PHC_1" && (0:ℤ) - 7 ≤ p.created_at) ≠ []
      ∧ cityPhcIds "Pollachi" ≠ []
      ∧ cityTotalPatients 0 cityExampleStore "Pollachi" 7 ≠ 0)
    ∧ ((calculate_phc_risk_score 0 cityExampleStore "PHC_1" 7).phc_risk_score
        = pyRound 4 (phc_risk_claimFormula
            (cityExampleStore.patients.filter
              (fun p => p.phc_id = "PHC_1" && (0:ℤ) - 7 ≤ p.created_at))))
    ∧ ((calculate_city_risk_score 0 cityExampleStore "Pollachi" 7).city_risk_score
        = pyRound 4 (pymin (((cityPhcIds "Pollachi").map (fun p2 =>
            (calculate_phc_risk_score 0 cityExampleStore p2 7).phc_risk_score
              * (((calculate_phc_risk_score 0 cityExampleStore p2 7).patient_count : ℚ)
                 / (cityTotalPatients 0 cityExampleStore "Pollachi" 7 : ℚ)))).sum) 1)) := by
  have h1 : cityExampleStore.patients.filter
      (fun p => p.phc_id = "PHC_1" && (0:ℤ) - 7 ≤ p.created_at) ≠ [] := by
    with_unfolding_all decide
  have h2 : cityPhcIds "Pollachi" ≠ [] := by with_unfolding_all decide
  have h3 : cityTotalPatients 0 cityExampleStore "Pollachi" 7 ≠ 0 := by
    with_unfolding_all decide
  exact ⟨⟨h1, h2, h3⟩,
    (risk_hierarchy_weighted 0 cityExampleStore "PHC_1" "Pollachi" 7).1 h1,
    (risk_hierarchy_weighted 0 cityExampleStore "PHC_1" "Pollachi" 7).2.1 h2 h3⟩

/-- C10: aggregation and broadcast only ever touch the four hard-coded
sites PHC_1..PHC_4 — every created GlobalModel's contributors lie in
that set, a LocalModel of any other site (such as PHC_5) is never
collected nor marked aggregated, and no other site receives a
ModelBroadcast — while unaggregated models of such sites still count
toward the ≥3-distinct-site trigger check.  (The id-uniqueness
hypothesis mirrors the uniqueness of Mongo document ids.) -/
theorem aggregation_core_sites_only (automatic : Bool) (s : Store)
    (hids : (s.locals.map (·.id)).Nodup) :
    aggregationCoreOnly automatic s := by
  unfold aggregationCoreOnly
  have htrig : ∀ m ∈ s.locals, m.aggregated = false →
      m.phc_id ∈ (should_trigger_global_aggregation s).2.2 := by
    intro m hm hagg
    have hmf : m ∈ s.locals.filter (fun x => !x.aggregated) :=
      List.mem_filter.mpr ⟨hm, by simp [hagg]⟩
    have hne : ¬ ((s.locals.filter (fun x => !x.aggregated)).isEmpty = true) := by
      intro hx
      rw [List.isEmpty_iff.mp hx] at hmf
      cases hmf
    have hmem : m.phc_id ∈ ((s.locals.filter (fun x => !x.aggregated)).map (·.phc_id)).dedup :=
      List.mem_dedup.mpr (List.mem_map_of_mem _ hmf)
    unfold should_trigger_global_aggregation
    rw [if_neg hne]
    dsimp only
    split
    · exact hmem
    · exact hmem
  by_cases hms : collectPhcModels automatic s = []
  · have hagg : aggregate_models automatic s = (none, s) := by
      unfold aggregate_models
      rw [if_pos (by rw [hms]; rfl)]
    rw [hagg]
    refine ⟨?_, ?_, ?_, ?_, htrig⟩
    · intro res hres
      exact absurd hres (by simp)
    · intro g hg
      exact Or.inl hg
    · intro m hm _
      exact hm
    · intro b hb
      exact Or.inl hb
  · have hisE : ¬ ((collectPhcModels automatic s).isEmpty = true) := by
      intro hx
      exact hms (List.isEmpty_iff.mp hx)
    refine ⟨?_, ?_, ?_, ?_, htrig⟩
    · intro res hres c hc
      revert hres
      unfold aggregate_models
      rw [if_neg hisE]
      dsimp only
      intro hres
      injection hres with h
      rw [← h] at hc
      dsimp only at hc
      rcases List.mem_map.mp hc with ⟨m, hmem, rfl⟩
      exact (collectPhcModels_mem automatic s m hmem).2.1
    · intro g hg
      revert hg
      unfold aggregate_models
      rw [if_neg hisE]
      simp only [broadcast_global_model]
      intro hg
      rcases List.mem_append.mp hg with h | h
      · exact Or.inl h
      · refine Or.inr ?_
        rcases List.mem_singleton.mp h with rfl
        intro c hc
        dsimp only at hc
        rcases List.mem_map.mp hc with ⟨m, hmem, rfl⟩
        exact (collectPhcModels_mem automatic s m hmem).2.1
    · intro m hm hnc
      unfold aggregate_models
      rw [if_neg hisE]
      simp only [broadcast_global_model]
      have hnotin : ((collectPhcModels automatic s).map (·.id)).contains m.id = false := by
        rw [Bool.eq_false_iff]
        intro hc
        rcases List.mem_map.mp (List.elem_iff.mp hc) with ⟨mc, hmc, hid⟩
        obtain ⟨hmcl, hmcc, _⟩ := collectPhcModels_mem automatic s mc hmc
        have hmm : mc = m := List.inj_on_of_nodup_map hids hmcl hm hid
        exact hnc (hmm ▸ hmcc)
      refine List.mem_map.mpr ⟨m, hm, ?_⟩
      dsimp only
      rw [hnotin]
      simp
    · intro b hb
      revert hb
      unfold aggregate_models
      rw [if_neg hisE]
      simp only [broadcast_global_model]
      intro hb
      rcases List.mem_append.mp hb with h | h
      · exact Or.inl h
      · refine Or.inr ?_
        rcases List.mem_map.mp h with ⟨phc, hphc, rfl⟩
        exact hphc

/-- Witness for C10 at a store holding unaggregated models at PHC_1,
PHC_2, PHC_3 and the non-core PHC_5. -/
theorem aggregation_core_sites_only_witness :
    (sCoreAndPhc5.locals.map (·.id)).Nodup ∧ aggregationCoreOnly true sCoreAndPhc5 :=
  ⟨by decide, aggregation_core_sites_only true sCoreAndPhc5 (by decide)⟩

end Fedhealth
